import Mathlib

/-!
Verification of the l2r-linkedin-api-service core: a shallow embedding of
the extraction engine, rate limiter, session controller (browser manager),
orchestrator escalation loop and HTTP boundary error mapping, together with
theorems settling the frozen claims about them.

JavaScript semantics conventions used by the embedding:
  * JSON values are modelled by the inductive `Json`; `undefined` and `null`
    are merged into `Json.null` (the source never distinguishes them: it only
    uses truthiness, optional chaining and strict comparison).
  * Plain property access `x.k` throws on `null`/`undefined` and is modelled
    in the `Except String` monad; optional access `x?.k` is total.
  * `for (... of xs)` throws on non-iterable operands.
  * `a || b` returns `a` when truthy, else `b`.
-/

inductive Json where
  | null : Json
  | bool : Bool → Json
  | num : Int → Json
  | str : String → Json
  | arr : List Json → Json
  | obj : List (String × Json) → Json

namespace Json

/-- JavaScript truthiness of a value (NaN is not representable here). -/
def truthy : Json → Bool
  | .null => false
  | .bool b => b
  | .num n => n != 0
  | .str s => s != ""
  | .arr _ => true
  | .obj _ => true

/-- Pure lookup of a key in an object's field list (first occurrence);
used only to state theorems about extracted records. -/
def objField : Json → String → Option Json
  | .obj fields, k => (fields.find? (fun f => f.1 == k)).map (·.2)
  | _, _ => none

/-- JavaScript plain property access `x.k`: throws a TypeError on
`null`/`undefined`, returns `undefined` for a missing key or a primitive. -/
def get (j : Json) (k : String) : Except String Json :=
  match j with
  | .null => .error "TypeError"
  | .obj fields => .ok (((fields.find? (fun f => f.1 == k)).map (·.2)).getD .null)
  | _ => .ok .null

/-- JavaScript optional property access `x?.k`: total; `null`/`undefined`
short-circuits to `undefined`. -/
def qget (j : Json) (k : String) : Json :=
  match j with
  | .obj fields => ((fields.find? (fun f => f.1 == k)).map (·.2)).getD .null
  | _ => .null

/-- JavaScript optional index access `x?.[i]`. -/
def qidx (j : Json) (i : Nat) : Json :=
  match j with
  | .arr xs => xs.getD i .null
  | .str s => ((s.toList.get? i).map (fun c => Json.str (String.mk [c]))).getD .null
  | .obj fields => ((fields.find? (fun f => f.1 == toString i)).map (·.2)).getD .null
  | _ => .null

/-- JavaScript `a || b`. -/
def jsOr (a b : Json) : Json := if a.truthy then a else b

/-- JavaScript `for (... of x)`: arrays iterate elements, strings iterate
characters, everything else raises a TypeError. -/
def toIterable : Json → Except String (List Json)
  | .arr xs => .ok xs
  | .str s => .ok (s.toList.map (fun c => Json.str (String.mk [c])))
  | _ => .error "TypeError"

mutual

/-- Structural equality of JSON values. -/
def beq : Json → Json → Bool
  | .null, .null => true
  | .bool x, .bool y => x == y
  | .num x, .num y => x == y
  | .str x, .str y => x == y
  | .arr xs, .arr ys => Json.beqList xs ys
  | .obj xs, .obj ys => Json.beqObj xs ys
  | _, _ => false

/-- Structural equality of JSON value lists. -/
def beqList : List Json → List Json → Bool
  | [], [] => true
  | x :: xs, y :: ys => Json.beq x y && Json.beqList xs ys
  | _, _ => false

/-- Structural equality of JSON object field lists. -/
def beqObj : List (String × Json) → List (String × Json) → Bool
  | [], [] => true
  | x :: xs, y :: ys => x.1 == y.1 && Json.beq x.2 y.2 && Json.beqObj xs ys
  | _, _ => false

end

end Json

/-- JavaScript strict equality `a === b` for parsed-JSON values: value
equality on primitives, structural equality on composites (parsed JSON never
aliases, so structurally distinct references never compare equal here on the
shapes the service manipulates). -/
def jsStrictEq (a b : Json) : Bool := Json.beq a b

/-- String infix test, mirroring JavaScript `String.prototype.includes`. -/
def strContains (s sub : String) : Bool :=
  go sub.toList s.toList
where
  go (needle : List Char) : List Char → Bool
    | [] => needle.isEmpty
    | c :: rest => needle.isPrefixOf (c :: rest) || go needle rest

/-- JavaScript `x.includes(arg)` for a string argument: defined for strings
(substring test) and arrays (membership), a TypeError otherwise. -/
def jsIncludes (j : Json) (s : String) : Except String Bool :=
  match j with
  | .str t => .ok (strContains t s)
  | .arr xs => .ok (xs.any (fun x => jsStrictEq x (.str s)))
  | _ => .error "TypeError"

/-- JavaScript `x?.includes(arg)` coerced to a boolean by its `&&`/`!`
context: `undefined` is falsy. -/
def jsIncludesOpt (j : Json) (s : String) : Except String Bool :=
  match j with
  | .null => .ok false
  | _ => jsIncludes j s

/-- JavaScript `arr.find(p)` with an effectful predicate; returns `undefined`
when no element matches, a TypeError when the receiver is not an array. -/
def jsFind (j : Json) (p : Json → Except String Bool) : Except String Json :=
  match j with
  | .arr xs => go xs
  | _ => .error "TypeError"
where
  go (xs : List Json) : Except String Json :=
    match xs with
    | [] => .ok .null
    | x :: rest => do if (← p x) then pure x else go rest

example : Json.jsOr Json.null (Json.str "x") = Json.str "x" := rfl
example : strContains "abc Session may be expired" "Session" = true := rfl
example : jsStrictEq (Json.arr [Json.str "a"]) (Json.arr [Json.str "a"]) = true := rfl
example : jsStrictEq Json.null (Json.str "") = false := rfl

/-! ## Extraction engine (LinkedInService, src/linkedin.service.ts 381-566) -/

/-- The entity type discriminator of a paged-list container. -/
def pagedListTypeName : String :=
  "com.linkedin.voyager.dash.identity.profile.tetris.PagedListComponent"

/-- One scan step over the flat included list (linkedin.service.ts 387-397):
paged-list entities are collected in order and, when they carry a truthy
entityUrn, recorded in the entityUrn keyed map (later entries shadow
earlier ones, as with Map.set). -/
def scanStep (acc : List Json × List (Json × Json)) (item : Json) :
    Except String (List Json × List (Json × Json)) := do
  let t ← item.get "$type"
  if jsStrictEq t (Json.str pagedListTypeName) then
    let u ← item.get "entityUrn"
    if u.truthy then
      pure (acc.1 ++ [item], (u, item) :: acc.2)
    else
      pure (acc.1 ++ [item], acc.2)
  else
    pure acc

/-- Scan of the included list for paged-list entities. -/
def scanPagedLists (items : List Json) :
    Except String (List Json × List (Json × Json)) :=
  items.foldlM scanStep ([], [])

/-- Lookup in the paged-list map (Map.get semantics; the most recently set
binding for a key wins because `scanStep` prepends). -/
def mapLookup (pmap : List (Json × Json)) (key : Json) : Option Json :=
  (pmap.find? (fun e => jsStrictEq e.1 key)).map (·.2)

/-- Predicate selecting the root paged list (linkedin.service.ts 402-407):
its entityUrn mentions the base profile and not a position group. -/
def rootPred (pl : Json) : Except String Bool := do
  let u ← pl.get "entityUrn"
  let a ← jsIncludesOpt u "fsd_profile:"
  if a then
    let u2 ← pl.get "entityUrn"
    let b ← jsIncludesOpt u2 "fsd_profilePositionGroup"
    pure !b
  else
    pure false

/-- First element satisfying an effectful predicate (Array.prototype.find). -/
def findFirstM (p : Json → Except String Bool) : List Json → Except String (Option Json)
  | [] => .ok none
  | x :: xs => do
    if (← p x) then pure (some x) else findFirstM p xs

/-- Root paged-list selection with its deterministic fall-back to the last
paged list in scan order (linkedin.service.ts 402-407). -/
def selectRootPagedList (allPagedLists : List Json) : Except String Json := do
  let f ← findFirstM rootPred allPagedLists
  match f with
  | some r => pure r
  | none => pure (allPagedLists.getLastD .null)

/-- findReferencedPagedList (linkedin.service.ts 455-467), inner loop. -/
def findRefAux (pmap : List (Json × Json)) : List Json → Except String (Option Json)
  | [] => .ok none
  | sub :: rest => do
    let c ← sub.get "components"
    let ref := c.qget "*pagedListComponent"
    if ref.truthy && (mapLookup pmap ref).isSome then
      pure (mapLookup pmap ref)
    else
      findRefAux pmap rest

/-- BrowserManager-side helper findReferencedPagedList: scans an entity's
sub-components for a cross-reference into the paged-list map. -/
def findReferencedPagedList (entity : Json) (pmap : List (Json × Json)) :
    Except String (Option Json) := do
  let sc ← entity.get "subComponents"
  let subComponents := Json.jsOr (sc.qget "components") (.arr [])
  let subs ← subComponents.toIterable
  findRefAux pmap subs

/-- resolveCompanyName (linkedin.service.ts 469-482), loop over the image
attributes: the first attribute whose detailData carries a company-logo
cross-reference that resolves in `included` to an entity with a truthy name
yields that name. -/
def resolveCoAux (included : Json) : List Json → Except String (Option Json)
  | [] => .ok none
  | attr :: rest => do
    let dd ← attr.get "detailData"
    let companyUrn := dd.qget "*companyLogo"
    if companyUrn.truthy then
      let co ← jsFind included (fun item => do
        let u ← item.get "entityUrn"
        pure (jsStrictEq u companyUrn))
      let nm := co.qget "name"
      if nm.truthy then pure (some nm) else resolveCoAux included rest
    else
      resolveCoAux included rest

/-- resolveCompanyName: resolves an entity's company via the image/logo
cross-reference into the included list; `none` models the `null` return. -/
def resolveCompanyName (entity : Json) (included : Json) :
    Except String (Option Json) := do
  let img ← entity.get "image"
  if (img.qget "attributes").truthy then
    let attrs ← img.get "attributes"
    let attrList ← attrs.toIterable
    resolveCoAux included attrList
  else
    pure none

/-- Description search (linkedin.service.ts 495-504): first sub-component
holding a plain text block. -/
def findDescription : List Json → Except String Json
  | [] => .ok .null
  | sub :: rest => do
    let c ← sub.get "components"
    let textComp :=
      ((((c.qget "fixedListComponent").qget "components").qidx 0).qget
        "components").qget "textComponent"
    let t := (textComp.qget "text").qget "text"
    if t.truthy then pure t else findDescription rest

/-- The section-specific field mapping (the switch of
linkedin.service.ts 522-565); `none` models the `null` default branch. -/
def mkRecord (sectionType : String) (title subtitle caption metadata description company : Json) :
    Option Json :=
  match sectionType with
  | "experience" =>
    some (.obj [("title", title),
                ("company", if jsStrictEq company (Json.str "N/A") then subtitle else company),
                ("duration", caption),
                ("location", metadata),
                ("description", description)])
  | "education" =>
    some (.obj [("schoolName", title),
                ("degree", subtitle),
                ("dates", caption),
                ("additionalInfo", description)])
  | "skills" =>
    some (.obj [("name", title),
                ("endorsements", Json.jsOr caption (Json.str "0 endorsements"))])
  | "projects" =>
    some (.obj [("title", title),
                ("description", Json.jsOr description subtitle),
                ("date", caption)])
  | "certifications" =>
    some (.obj [("name", title),
                ("organization", subtitle),
                ("issueDate", caption)])
  | "volunteering-experiences" =>
    some (.obj [("role", title),
                ("organization", if jsStrictEq company (Json.str "N/A") then subtitle else company),
                ("duration", caption),
                ("cause", metadata),
                ("description", description)])
  | _ => none

/-- The field reads of extractEntityData (linkedin.service.ts 489-520),
in source order: title, subtitle, caption, metadata, the description search
over sub-components and the logo-resolved company (defaulting to 'N/A'). -/
def extractEntityFields (entity : Json) (included : Json) :
    Except String (Json × Json × Json × Json × Json × Json) := do
  let tv ← entity.get "titleV2"
  let title := Json.jsOr ((tv.qget "text").qget "text") (.str "N/A")
  let st ← entity.get "subtitle"
  let subtitle := Json.jsOr (st.qget "text") (.str "N/A")
  let cp ← entity.get "caption"
  let caption := Json.jsOr (cp.qget "text") (.str "N/A")
  let md ← entity.get "metadata"
  let metadata := Json.jsOr (md.qget "text") (.str "N/A")
  let sc ← entity.get "subComponents"
  let subComponents := Json.jsOr (sc.qget "components") (.arr [])
  let subs ← subComponents.toIterable
  let description ← findDescription subs
  let rc ← resolveCompanyName entity included
  let company := match rc with
    | some v => v
    | none => Json.str "N/A"
  pure (title, subtitle, caption, metadata, description, company)

/-- extractEntityData (linkedin.service.ts 484-566): reads the optional text
fields, searches sub-components for a free-text description, resolves the
company via the logo cross-reference and applies the section field map.
The source's `company !== 'N/A' ? company : subtitle` is phrased inside
`mkRecord` with the equality flipped. -/
def extractEntityData (entity : Json) (sectionType : String) (included : Json) :
    Except String (Option Json) := do
  let f ← extractEntityFields entity included
  pure (mkRecord sectionType f.1 f.2.1 f.2.2.1 f.2.2.2.1 f.2.2.2.2.1 f.2.2.2.2.2)

/-- The grouped-entry inner loop (linkedin.service.ts 431-445): each nested
element's entity is extracted and, when its own company field is the 'N/A'
placeholder or strictly equal to its own title, overwritten with the parent
label. -/
def setObjField (j : Json) (k : String) (v : Json) : Json :=
  match j with
  | .obj fields =>
    if fields.any (fun f => f.1 == k) then
      .obj (fields.map (fun f => if f.1 == k then (f.1, v) else f))
    else
      .obj (fields ++ [(k, v)])
  | other => other

/-- Processing of the nested elements of a referenced (grouped) paged list. -/
def processNested (sectionType : String) (included : Json) (parentCompany : Json) :
    List Json → Except String (List Json)
  | [] => .ok []
  | nestedEl :: rest => do
    let c ← nestedEl.get "components"
    let nestedEntity := c.qget "entityComponent"
    if nestedEntity.truthy then
      let item? ← extractEntityData nestedEntity sectionType included
      let tail ← processNested sectionType included parentCompany rest
      match item? with
      | some item => do
        let co ← item.get "company"
        let ti ← item.get "title"
        let item := if jsStrictEq co (Json.str "N/A") || jsStrictEq co ti then
          setObjField item "company" parentCompany
        else item
        pure (item :: tail)
      | none => pure tail
    else
      processNested sectionType included parentCompany rest

/-- The parent label of a grouped element
(linkedin.service.ts 425-428): the logo-resolved company name, falling back
to the entity's own title, then to 'N/A'. -/
def parentCompanyLabel (entity : Json) (included : Json) : Except String Json := do
  let rc ← resolveCompanyName entity included
  let tv ← entity.get "titleV2"
  pure (Json.jsOr (match rc with | some v => v | none => .null)
    (Json.jsOr ((tv.qget "text").qget "text") (.str "N/A")))

/-- The per-root-element body of extractComponentData's main loop
(linkedin.service.ts 411-450): a grouped element (entity referencing a nested
paged list, in a section where grouping applies) iterates the nested list
with the parent label; otherwise the entity is extracted directly. -/
def processElement (sectionType : String) (included : Json) (pmap : List (Json × Json))
    (element : Json) : Except String (List Json) := do
  let c ← element.get "components"
  let entity := c.qget "entityComponent"
  if entity.truthy then
    let ref? ← findReferencedPagedList entity pmap
    match ref? with
    | some referencedList =>
      if sectionType == "experience" || sectionType == "volunteering-experiences" then
        let parentCompany ← parentCompanyLabel entity included
        let rlc ← referencedList.get "components"
        let nestedElements := Json.jsOr (rlc.qget "elements") (.arr [])
        let nested ← nestedElements.toIterable
        processNested sectionType included parentCompany nested
      else do
        let item? ← extractEntityData entity sectionType included
        pure (match item? with | some i => [i] | none => [])
    | none => do
      let item? ← extractEntityData entity sectionType included
      pure (match item? with | some i => [i] | none => [])
  else
    pure []

/-- extractComponentData (linkedin.service.ts 381-453): the pure transform
from a raw section envelope to the list of extracted records, in the
`Except` monad to model JavaScript TypeErrors. -/
def extractComponentData (data : Json) (sectionType : String) :
    Except String (List Json) := do
  let inc ← data.get "included"
  let included := Json.jsOr inc (.arr [])
  let items ← included.toIterable
  let scanned ← scanPagedLists items
  let allPagedLists := scanned.1
  let pmap := scanned.2
  if allPagedLists.isEmpty then
    pure []
  else do
    let root ← selectRootPagedList allPagedLists
    let comps ← root.get "components"
    let elementsJ := Json.jsOr (comps.qget "elements") (.arr [])
    let elements ← elementsJ.toIterable
    elements.foldlM (fun acc el => do
      let r ← processElement sectionType included pmap el
      pure (acc ++ r)) []

/-! ## Rate limiter (RateLimiter, rate-limiter source file)

Time is modelled explicitly: every function takes the current epoch
millisecond clock as an argument, and waiting is modelled by returning the
(later) clock value at which the call resumes.  Randomness is modelled by a
natural-number seed `r`; `randomIntM lo hi r` realises
`Math.floor(Math.random() * (hi - lo + 1)) + lo`, whose value set for
`r` ranging over `Nat` is exactly the integer interval `[lo, hi]`. -/

def HOUR_MS : Int := 3600000

structure RLConfig where
  maxRequestsPerHour : Nat
  minProfileGapMs : Int
  maxProfileGapMs : Int
  minSectionGapMs : Int
  maxSectionGapMs : Int

/-- The constructor defaults of RateLimiter. -/
def defaultRLConfig : RLConfig :=
  { maxRequestsPerHour := 200, minProfileGapMs := 8000, maxProfileGapMs := 15000,
    minSectionGapMs := 2000, maxSectionGapMs := 4000 }

structure RLState where
  requestTimestamps : List Int
  lastProfileFetchTime : Int
deriving DecidableEq

/-- A fresh rate limiter. -/
def initialRLState : RLState := { requestTimestamps := [], lastProfileFetchTime := 0 }

/-- randomInt(min, max) of the source for one random seed. -/
def randomIntM (lo hi : Int) (r : Nat) : Int := lo + (r : Int) % (hi - lo + 1)

/-- pruneOldTimestamps: drop entries at least one hour old. -/
def pruneOldTimestamps (now : Int) (ts : List Int) : List Int :=
  ts.filter (fun t => decide (now - HOUR_MS < t))

/-- recordRequest: append the current time to the window. -/
def recordRequest (st : RLState) (now : Int) : RLState :=
  { st with requestTimestamps := st.requestTimestamps ++ [now] }

/-- getHourlyUsage: prune, then report (count in window, cap); also returns
the post-prune state since the source mutates `requestTimestamps`. -/
def getHourlyUsage (cfg : RLConfig) (st : RLState) (now : Int) :
    (Nat × Nat) × RLState :=
  let ts := pruneOldTimestamps now st.requestTimestamps
  ((ts.length, cfg.maxRequestsPerHour), { st with requestTimestamps := ts })

/-- The hourly-quota wait of waitForProfileSlot: when the pruned window is
at or over the cap, the clock advances until the oldest pruned timestamp
exits the one-hour window (a non-positive wait is skipped; an empty window
with cap 0 yields NaN comparisons that skip the sleep). -/
def quotaResumeTime (cfg : RLConfig) (ts : List Int) (now : Int) : Int :=
  if cfg.maxRequestsPerHour ≤ ts.length then
    match ts.head? with
    | some oldest => if 0 < oldest + HOUR_MS - now then oldest + HOUR_MS else now
    | none => now
  else now

/-- The inter-profile-gap sleep of waitForProfileSlot: given the clock `t1`
after the quota wait and the previous profile fetch time, resume after the
remainder of the randomly chosen gap, if any. -/
def gapResumeTime (last t1 gap : Int) : Int :=
  if 0 < last then
    if t1 - last < gap then t1 + (gap - (t1 - last)) else t1
  else t1

/-- waitForProfileSlot: prune; wait out the hourly quota; then, when a
previous profile fetch exists, sleep any remainder of a randomly chosen
inter-profile gap; finally stamp `lastProfileFetchTime` with the return
time.  The returned `Int` is the clock value when the call returns. -/
def waitForProfileSlot (cfg : RLConfig) (st : RLState) (now : Int) (gapSeed : Nat) :
    RLState × Int :=
  let ts := pruneOldTimestamps now st.requestTimestamps
  let t1 := quotaResumeTime cfg ts now
  let t2 := gapResumeTime st.lastProfileFetchTime t1
    (randomIntM cfg.minProfileGapMs cfg.maxProfileGapMs gapSeed)
  ({ requestTimestamps := ts, lastProfileFetchTime := t2 }, t2)

/-! ## Session controller (BrowserManager, browser-manager source file)

The browser-automation environment is abstracted as a `LoginNav` outcome for
the interactive login flow: the navigation can fail (timeouts and any other
error raised before the success URL is reached), resolve to a
challenge/checkpoint URL, or resolve to the feed with the new context's
cookie list. -/

structure BMState where
  browserLaunched : Bool
  context : Option Nat
  page : Option Nat
  csrfToken : String
  ready : Bool
  sessionRefreshCount : Nat
deriving DecidableEq

inductive LoginNav where
  | navError : LoginNav
  | challenge : LoginNav
  | success : List (String × String) → Nat → LoginNav

/-- Strip surrounding (and any other) double-quote characters, as
`value.replace(/"/g, '')`. -/
def stripQuotes (s : String) : String :=
  String.mk (s.toList.filter (fun c => c != '"'))

/-- Cookie lookup by name, as `rawCookies.find((c) => c.name === ...)`. -/
def lookupCookie (cookies : List (String × String)) (name : String) : Option String :=
  (cookies.find? (fun c => c.1 == name)).map (·.2)

/-- getSessionRefreshCount. -/
def getSessionRefreshCount (s : BMState) : Nat := s.sessionRefreshCount

/-- refreshSessionViaLogin (browser-manager source 237-359): bumps the
refresh counter, builds a fresh context, drives the login flow, and swaps the
new context in only after the token-bearing cookie is found; every failure
restores the old context, page and token and recomputes the readiness flag
from their presence. -/
def refreshSessionViaLogin (s : BMState) (newContextId : Nat) (nav : LoginNav) :
    Except String (String × List (String × String)) × BMState :=
  if !s.browserLaunched then
    (.error "Browser not launched. Call init() first.", s)
  else
    let s1 : BMState := { s with sessionRefreshCount := s.sessionRefreshCount + 1 }
    let restored : BMState :=
      { s1 with context := s.context, page := s.page, csrfToken := s.csrfToken,
                ready := s.page.isSome && s.context.isSome }
    match nav with
    | .navError => (.error "login navigation failed", restored)
    | .challenge =>
      (.error "LinkedIn requires verification (CAPTCHA/email/phone).", restored)
    | .success cookies newPageId =>
      match lookupCookie cookies "JSESSIONID" with
      | none => (.error "Login succeeded but JSESSIONID cookie not found.", restored)
      | some v =>
        let tok := stripQuotes v
        (.ok (tok, cookies),
         { s1 with context := some newContextId, page := some newPageId,
                   csrfToken := tok, ready := true })

/-! ## Profile orchestrator (LinkedInService.fetchProfileData section loop,
linkedin.service.ts 174-228, and fetchSingleSection, 267-281)

The network and the random sleeps are abstracted as per-section inputs; the
loop body is modelled as a step function that also emits the trace of
rate-limiter and session interactions it performs. -/

inductive OrchEvent where
  | waitSectionSlot : OrchEvent
  | waitProfileSlot : OrchEvent
  | recordRequestEv : OrchEvent
  | fetchSectionEv : OrchEvent
  | refreshAttempt : Bool → OrchEvent
  | sleepCooldown : Nat → OrchEvent
deriving DecidableEq

/-- Source constant SOFT_LIMIT_THRESHOLD. -/
def SOFT_LIMIT_THRESHOLD : Nat := 2

/-- Source constant MAX_SESSION_REFRESHES_PER_REQUEST. -/
def MAX_SESSION_REFRESHES_PER_REQUEST : Nat := 2

/-- sleep(min, max) of LinkedInService: the realised duration for one random
seed, `Math.floor(Math.random() * (max - min + 1)) + min`. -/
def sleepRangeMs (minMs maxMs : Nat) (seed : Nat) : Nat :=
  minMs + seed % (maxMs - minMs + 1)

structure OrchState where
  consecutiveEmptySections : Nat
  sessionRefreshesThisRequest : Nat
deriving DecidableEq

/-- Per-section environment: the items extracted from the first fetch, the
items extracted from the retry fetch (used only after a successful refresh),
whether refreshSession succeeds, and the random seed of the cooldown sleep. -/
structure SectionInput where
  firstItems : List Json
  retryItems : List Json
  refreshOk : Bool
  cooldownSeed : Nat

/-- One iteration of the section loop of fetchProfileData
(linkedin.service.ts 178-228): fetch and extract; on an empty result bump
the consecutive-empty counter and, at the threshold with refresh budget and
credentials available, attempt a session refresh — retrying the same section
once on success, sleeping a 60-65s cooldown on failure; a non-empty result
resets the counter. -/
def fetchSectionStep (email password : String) (st : OrchState) (inp : SectionInput) :
    OrchState × List Json × List OrchEvent :=
  let evs0 := [OrchEvent.waitSectionSlot, OrchEvent.recordRequestEv, OrchEvent.fetchSectionEv]
  let items := inp.firstItems
  if items.isEmpty then
    let c := st.consecutiveEmptySections + 1
    if SOFT_LIMIT_THRESHOLD ≤ c ∧
        st.sessionRefreshesThisRequest < MAX_SESSION_REFRESHES_PER_REQUEST ∧
        email ≠ "" ∧ password ≠ "" then
      if inp.refreshOk then
        ({ consecutiveEmptySections := 0,
           sessionRefreshesThisRequest := st.sessionRefreshesThisRequest + 1 },
         inp.retryItems,
         evs0 ++ [OrchEvent.refreshAttempt true, OrchEvent.recordRequestEv,
                  OrchEvent.fetchSectionEv])
      else
        ({ consecutiveEmptySections := c,
           sessionRefreshesThisRequest := st.sessionRefreshesThisRequest },
         items,
         evs0 ++ [OrchEvent.refreshAttempt false,
                  OrchEvent.sleepCooldown (sleepRangeMs 60000 65000 inp.cooldownSeed)])
    else
      ({ consecutiveEmptySections := c,
         sessionRefreshesThisRequest := st.sessionRefreshesThisRequest }, items, evs0)
  else
    ({ consecutiveEmptySections := 0,
       sessionRefreshesThisRequest := st.sessionRefreshesThisRequest }, items, evs0)

/-- Number of reauthentication attempts in a trace. -/
def countRefreshAttempts (evs : List OrchEvent) : Nat :=
  evs.countP (fun e => match e with | OrchEvent.refreshAttempt _ => true | _ => false)

/-- Number of section fetches in a trace. -/
def countFetches (evs : List OrchEvent) : Nat :=
  evs.countP (fun e => match e with | OrchEvent.fetchSectionEv => true | _ => false)

/-- Number of recordRequest calls in a trace. -/
def countRecords (evs : List OrchEvent) : Nat :=
  evs.countP (fun e => match e with | OrchEvent.recordRequestEv => true | _ => false)

/-- Number of network calls (browser.makeApiCall) in a trace. -/
def countApiCalls (evs : List OrchEvent) : Nat :=
  evs.countP (fun e => match e with | OrchEvent.fetchSectionEv => true | _ => false)

/-- Environment of resolveProfileUrn (linkedin.service.ts 83-139). -/
structure ResolveEnv where
  cacheHit : Bool
  fileMatch : Bool
  apiError : Bool
  urnFound : Bool

/-- resolveProfileUrn, with its trace: cache and credentials-file hits make
no network call; the network path records exactly one request for its one
API call and throws on an HTTP error or a missing URN. -/
def resolveProfileUrn (rl : RLState) (now : Int) (env : ResolveEnv) :
    Except String Unit × List OrchEvent × RLState :=
  if env.cacheHit then (.ok (), [], rl)
  else if env.fileMatch then (.ok (), [], rl)
  else
    let rl1 := recordRequest rl now
    let evs := [OrchEvent.recordRequestEv, OrchEvent.fetchSectionEv]
    if env.apiError then
      (.error "Failed to extract URN. Credentials may be expired.", evs, rl1)
    else if env.urnFound then (.ok (), evs, rl1)
    else (.error "Could not find profile", evs, rl1)

/-- Environment of fetchSingleSection. -/
structure SingleSectionEnv where
  resolve : ResolveEnv
  sectionApiError : Bool
  sectionData : Json

/-- fetchSingleSection (linkedin.service.ts 267-281): resolve the URN, record
one request, fetch the raw section (an HTTP failure yields an empty
envelope, not an exception) and extract — with no rate-limiter wait, no
ambient traffic, and no soft-limit escalation. -/
def fetchSingleSection (rl : RLState) (now : Int) (env : SingleSectionEnv)
    (sectionType : String) :
    Except String (List Json) × List OrchEvent × RLState :=
  match resolveProfileUrn rl now env.resolve with
  | (.error e, evs, rl1) => (.error e, evs, rl1)
  | (.ok _, evs, rl1) =>
    let rl2 := recordRequest rl1 now
    let evs2 := evs ++ [OrchEvent.recordRequestEv, OrchEvent.fetchSectionEv]
    let raw :=
      if env.sectionApiError then Json.obj [("included", Json.arr [])]
      else Json.jsOr env.sectionData (Json.obj [("included", Json.arr [])])
    (extractComponentData raw sectionType, evs2, rl2)

/-! ## Boundary error mapping (server source, classifyError and
buildErrorResponse) -/

/-- classifyError: substring-based mapping from an error message to an HTTP
status code. -/
def classifyError (msg : String) : Nat :=
  if strContains msg "Could not find profile" then 404
  else if strContains msg "Credentials file not found" then 500
  else if strContains msg "Session may be expired" || strContains msg "CSRF" then 401
  else if strContains msg "rate limit" || strContains msg "429" then 429
  else 500

structure ErrBody where
  code : String
  message : String
  details : String
deriving DecidableEq

/-- buildErrorResponse: the JSON error body, always carrying the underlying
message and the profile handle being processed. -/
def buildErrorResponse (msg : String) (vanityName : String) : ErrBody :=
  let code :=
    if strContains msg "Could not find profile" then "PROFILE_NOT_FOUND"
    else if strContains msg "Credentials file not found" then "CREDENTIALS_MISSING"
    else if strContains msg "Session may be expired" || strContains msg "CSRF" then
      "SESSION_EXPIRED"
    else if strContains msg "rate limit" || strContains msg "429" then "RATE_LIMITED"
    else "INTERNAL_ERROR"
  { code := code, message := msg, details := "Request for profile: " ++ vanityName }

/-- getHourlyUsage of the service layer (linkedin.service.ts 283-288): the
rate limiter usage extended with the browser's session refresh counter. -/
def serviceHourlyUsage (cfg : RLConfig) (rl : RLState) (now : Int) (bm : BMState) :
    (Nat × Nat × Nat) × RLState :=
  let (u, rl1) := getHourlyUsage cfg rl now
  ((u.1, u.2, getSessionRefreshCount bm), rl1)

/-! ## Concrete inputs used by witnesses and counterexamples -/

/-- The single experience entity of the round-trip envelope: title
"Engineer", subtitle "Acme Corp", caption "2020–2023", no metadata, no
company-logo cross-reference, no sub-components. -/
def entC3 : Json := .obj [
  ("titleV2", .obj [("text", .obj [("text", .str "Engineer")])]),
  ("subtitle", .obj [("text", .str "Acme Corp")]),
  ("caption", .obj [("text", .str "2020–2023")])]

/-- The round-trip envelope: one root paged list with one element. -/
def envC3 : Json := .obj [("included", .arr [
  .obj [("$type", .str pagedListTypeName),
        ("entityUrn", .str "urn:li:fsd_profile:ACo,EXPERIENCE"),
        ("components", .obj [("elements", .arr [
          .obj [("components", .obj [("entityComponent", entC3)])]])])]])]

/-- The record the code actually produces for `envC3`. -/
def recC3 : Json := .obj [
  ("title", .str "Engineer"), ("company", .str "Acme Corp"),
  ("duration", .str "2020–2023"), ("location", .str "N/A"),
  ("description", .null)]

/-- Parent entity of the grouped envelope: carries a company-logo
cross-reference and a sub-component referencing a nested paged list. -/
def parentEntC7 : Json := .obj [
  ("titleV2", .obj [("text", .obj [("text", .str "ParentOrg")])]),
  ("image", .obj [("attributes", .arr [
    .obj [("detailData", .obj [("*companyLogo", .str "urn:li:fsd_company:1")])]])]),
  ("subComponents", .obj [("components", .arr [
    .obj [("components", .obj [("*pagedListComponent", .str "urn:nestedPL")])]])])]

/-- A nested element with only a title and a caption (no company of its
own). -/
def nestedElC7 (role dur : String) : Json :=
  .obj [("components", .obj [("entityComponent", .obj [
    ("titleV2", .obj [("text", .obj [("text", .str role)])]),
    ("caption", .obj [("text", .str dur)])])])]

/-- Included list of the grouped envelope: root paged list, referenced
nested paged list with two elements, and the company entity the logo
cross-reference resolves to. -/
def includedC7 : List Json := [
  .obj [("$type", .str pagedListTypeName),
        ("entityUrn", .str "urn:li:fsd_profile:ABC,VOLUNTEER"),
        ("components", .obj [("elements", .arr [
          .obj [("components", .obj [("entityComponent", parentEntC7)])]])])],
  .obj [("$type", .str pagedListTypeName),
        ("entityUrn", .str "urn:nestedPL"),
        ("components", .obj [("elements", .arr [
          nestedElC7 "Role1" "2020", nestedElC7 "Role2" "2021"])])],
  .obj [("entityUrn", .str "urn:li:fsd_company:1"), ("name", .str "ParentCo")]]

/-- The grouped envelope. -/
def envC7 : Json := .obj [("included", .arr includedC7)]

/-- What the code produces from `envC7` for volunteering: the parent label
lands in an extra `company` property, while `organization` keeps the
entity's own (placeholder) value. -/
def vrecC7 (role dur : String) : Json := .obj [
  ("role", .str role), ("organization", .str "N/A"), ("duration", .str dur),
  ("cause", .str "N/A"), ("description", .null), ("company", .str "ParentCo")]

/-- The experience-section record the grouped path produces for a nested
element of `includedC7` after the parent-label patch. -/
def erecC7 (role dur : String) : Json := .obj [
  ("title", .str role), ("company", .str "ParentCo"), ("duration", .str dur),
  ("location", .str "N/A"), ("description", .null)]

/-- A ready browser-manager state used by witnesses. -/
def bmReady : BMState :=
  { browserLaunched := true, context := some 1, page := some 2,
    csrfToken := "ajax:123", ready := true, sessionRefreshCount := 3 }

/-! ## Claim theorems -/

/-- C1: every failure of refreshSessionViaLogin (challenge page, missing
token-bearing cookie, navigation timeout or any other login-flow error)
leaves the controller pointing at the original pre-attempt session: the
active context, page and CSRF token are restored to their pre-call values
and the readiness flag is unchanged, so a subsequent execute uses the same
cookie/token identity as before. -/
theorem refreshSessionViaLogin_failure_preserves_session
    (s : BMState) (cid : Nat) (nav : LoginNav) (e : String)
    (hready : s.ready = (s.page.isSome && s.context.isSome))
    (herr : (refreshSessionViaLogin s cid nav).1 = .error e) :
    (refreshSessionViaLogin s cid nav).2.context = s.context ∧
    (refreshSessionViaLogin s cid nav).2.page = s.page ∧
    (refreshSessionViaLogin s cid nav).2.csrfToken = s.csrfToken ∧
    (refreshSessionViaLogin s cid nav).2.ready = s.ready := by
  unfold refreshSessionViaLogin at herr ⊢
  by_cases hb : s.browserLaunched
  · simp only [hb, Bool.not_true, Bool.false_eq_true, if_false]
    cases nav with
    | navError => simp [hready]
    | challenge => simp [hready]
    | success cookies pid =>
      cases hc : lookupCookie cookies "JSESSIONID" with
      | none => simp [hc, hready]
      | some v =>
        exfalso
        simp only [hb, Bool.not_true, Bool.false_eq_true, if_false, hc] at herr
        exact Except.noConfusion herr
  · simp [hb]

/-- C1 witness: a challenge outcome at a concrete ready state restores the
pre-attempt context, page, token and readiness flag. -/
theorem refreshSessionViaLogin_failure_preserves_session_witness :
    (refreshSessionViaLogin bmReady 7 LoginNav.challenge).2.context = bmReady.context ∧
    (refreshSessionViaLogin bmReady 7 LoginNav.challenge).2.page = bmReady.page ∧
    (refreshSessionViaLogin bmReady 7 LoginNav.challenge).2.csrfToken = bmReady.csrfToken ∧
    (refreshSessionViaLogin bmReady 7 LoginNav.challenge).2.ready = bmReady.ready :=
  refreshSessionViaLogin_failure_preserves_session bmReady 7 LoginNav.challenge
    "LinkedIn requires verification (CAPTCHA/email/phone)." rfl rfl

/-- C10: refreshSessionViaLogin increments the session-refresh counter
before the login flow runs and never rolls it back, so every attempt made
with a launched browser — failed, verification-blocked or successful —
increases getSessionRefreshCount (and the sessionRefreshes figure of the
service usage stats) by exactly one. -/
theorem refreshSessionViaLogin_counts_attempts
    (s : BMState) (cid : Nat) (nav : LoginNav) (rl : RLState) (now : Int)
    (hb : s.browserLaunched = true) :
    getSessionRefreshCount (refreshSessionViaLogin s cid nav).2
      = getSessionRefreshCount s + 1 ∧
    (serviceHourlyUsage defaultRLConfig rl now (refreshSessionViaLogin s cid nav).2).1.2.2
      = (serviceHourlyUsage defaultRLConfig rl now s).1.2.2 + 1 := by
  unfold refreshSessionViaLogin serviceHourlyUsage getSessionRefreshCount
  cases nav with
  | navError => simp [hb]
  | challenge => simp [hb]
  | success cookies pid =>
    cases hc : lookupCookie cookies "JSESSIONID" with
    | none => simp [hb, hc]
    | some v => simp [hb, hc]

/-- C10 witness: a verification-blocked attempt still bumps the counter. -/
theorem refreshSessionViaLogin_counts_attempts_witness :
    getSessionRefreshCount (refreshSessionViaLogin bmReady 7 LoginNav.challenge).2
      = getSessionRefreshCount bmReady + 1 ∧
    (serviceHourlyUsage defaultRLConfig initialRLState 0
        (refreshSessionViaLogin bmReady 7 LoginNav.challenge).2).1.2.2
      = (serviceHourlyUsage defaultRLConfig initialRLState 0 bmReady).1.2.2 + 1 :=
  refreshSessionViaLogin_counts_attempts bmReady 7 LoginNav.challenge initialRLState 0 rfl

/-- C4: the claim that extractComponentData never raises on any raw input
fails on the code: a `null` entry inside the `included` list makes the
type-discriminator read throw a TypeError, while the code's own guards
elsewhere (and the spec) intend malformed entities to be skipped.  An
envelope without any `included` list still yields the empty array. -/
theorem extractComponentData_null_entity_raises :
    extractComponentData (Json.obj [("included", Json.arr [Json.null])]) "experience"
      = .error "TypeError" ∧
    extractComponentData (Json.obj []) "experience" = .ok [] :=
  ⟨rfl, rfl⟩

/-- C3 counterexample: the round-trip envelope does not produce the record
claimed by the spec — the missing-location placeholder is "N/A", not
"unknown". -/
theorem extractComponentData_roundtrip_not_unknown :
    extractComponentData envC3 "experience" ≠
      .ok [Json.obj [
        ("title", .str "Engineer"), ("company", .str "Acme Corp"),
        ("duration", .str "2020–2023"), ("location", .str "unknown"),
        ("description", .null)]] := by
  intro h
  rw [show extractComponentData envC3 "experience" = .ok [recC3] from rfl] at h
  simp [recC3] at h

/-- C3 (amended): the round-trip envelope yields exactly one record
{title "Engineer", company "Acme Corp", duration "2020–2023",
location "N/A", description null}; entities missing optional scalar fields
receive the "N/A" placeholder rather than being dropped. -/
theorem extractComponentData_roundtrip :
    extractComponentData envC3 "experience" = .ok [recC3] ∧
    Json.objField recC3 "location" = some (Json.str "N/A") ∧
    Json.objField recC3 "description" = some Json.null :=
  ⟨rfl, rfl, rfl⟩

/-- C8 counterexample: the credentials-file-missing error — a credentials
issue by the code's own CREDENTIALS_MISSING code — is mapped to 500, not to
the 401 the claim assigns to credentials/session issues. -/
theorem classifyError_credentials_file_not_401 :
    classifyError "Credentials file not found at: /app/linkedin-credentials.json. Please generate credentials first." = 500 ∧
    (buildErrorResponse "Credentials file not found at: /app/linkedin-credentials.json. Please generate credentials first." "alice").code
      = "CREDENTIALS_MISSING" ∧
    classifyError "Credentials file not found at: /app/linkedin-credentials.json. Please generate credentials first." ≠ 401 :=
  ⟨rfl, rfl, by decide⟩

/-- C8 (amended): the boundary maps every raised error to a fixed
status/code pair by message substring — profile-not-found to 404,
expired-session/CSRF issues to 401, rate-limit-class errors to 429, the
missing-credentials-file error to 500 (CREDENTIALS_MISSING), everything
else to 500 — and the response body always carries the underlying error
message and the profile handle that was being processed. -/
theorem classifyError_buildErrorResponse_spec (msg handle : String) :
    (buildErrorResponse msg handle).message = msg ∧
    (buildErrorResponse msg handle).details = "Request for profile: " ++ handle ∧
    (classifyError msg = 404 ∨ classifyError msg = 401 ∨ classifyError msg = 429 ∨
      classifyError msg = 500) ∧
    (strContains msg "Could not find profile" = true →
      classifyError msg = 404 ∧ (buildErrorResponse msg handle).code = "PROFILE_NOT_FOUND") ∧
    (strContains msg "Could not find profile" = false →
      strContains msg "Credentials file not found" = true →
      classifyError msg = 500 ∧ (buildErrorResponse msg handle).code = "CREDENTIALS_MISSING") ∧
    (strContains msg "Could not find profile" = false →
      strContains msg "Credentials file not found" = false →
      (strContains msg "Session may be expired" || strContains msg "CSRF") = true →
      classifyError msg = 401 ∧ (buildErrorResponse msg handle).code = "SESSION_EXPIRED") ∧
    (strContains msg "Could not find profile" = false →
      strContains msg "Credentials file not found" = false →
      (strContains msg "Session may be expired" || strContains msg "CSRF") = false →
      (strContains msg "rate limit" || strContains msg "429") = true →
      classifyError msg = 429 ∧ (buildErrorResponse msg handle).code = "RATE_LIMITED") ∧
    (strContains msg "Could not find profile" = false →
      strContains msg "Credentials file not found" = false →
      (strContains msg "Session may be expired" || strContains msg "CSRF") = false →
      (strContains msg "rate limit" || strContains msg "429") = false →
      classifyError msg = 500 ∧ (buildErrorResponse msg handle).code = "INTERNAL_ERROR") := by
  unfold classifyError buildErrorResponse
  by_cases h1 : strContains msg "Could not find profile"
  · simp [h1]
  · by_cases h2 : strContains msg "Credentials file not found"
    · simp [h1, h2]
    · by_cases h3 : (strContains msg "Session may be expired" || strContains msg "CSRF") = true
      · simp [h1, h2, h3]
      · by_cases h4 : (strContains msg "rate limit" || strContains msg "429") = true
        · simp [h1, h2, h3, h4]
        · simp [h1, h2, h3, h4]

/-- C8 witness: the session-expired message maps to 401 with the message
and handle in the body. -/
theorem classifyError_buildErrorResponse_spec_witness :
    (buildErrorResponse "Failed to fetch basic profile: HTTP 403. Session may be expired." "alice").message
      = "Failed to fetch basic profile: HTTP 403. Session may be expired." ∧
    (buildErrorResponse "Failed to fetch basic profile: HTTP 403. Session may be expired." "alice").details
      = "Request for profile: alice" ∧
    classifyError "Failed to fetch basic profile: HTTP 403. Session may be expired." = 401 ∧
    (buildErrorResponse "Failed to fetch basic profile: HTTP 403. Session may be expired." "alice").code
      = "SESSION_EXPIRED" := by
  have h := classifyError_buildErrorResponse_spec
    "Failed to fetch basic profile: HTTP 403. Session may be expired." "alice"
  refine ⟨h.1, h.2.1, ?_, ?_⟩
  · exact (h.2.2.2.2.2.1 rfl rfl rfl).1
  · exact (h.2.2.2.2.2.1 rfl rfl rfl).2

/-- C2: when a section comes back empty, the consecutive-empty counter
reaches the threshold 2, fewer than 2 refreshes have happened this request
and both credentials are configured, the loop body makes exactly one
reauthentication attempt; on success it resets the counter, bumps the
refresh budget and retries the same section exactly once (two fetches, the
retry's items are kept); on failure it sleeps a cooldown in
[60000, 65000] ms, leaves the budget alone, does not retry and proceeds
without raising; and any section yielding a non-empty result resets the
counter to zero. -/
theorem fetchSectionStep_escalation (email password : String) (st : OrchState)
    (inp : SectionInput)
    (hempty : inp.firstItems = [])
    (hthr : SOFT_LIMIT_THRESHOLD ≤ st.consecutiveEmptySections + 1)
    (hbudget : st.sessionRefreshesThisRequest < MAX_SESSION_REFRESHES_PER_REQUEST)
    (he : email ≠ "") (hp : password ≠ "") :
    countRefreshAttempts (fetchSectionStep email password st inp).2.2 = 1 ∧
    (inp.refreshOk = true →
      (fetchSectionStep email password st inp).1.consecutiveEmptySections = 0 ∧
      (fetchSectionStep email password st inp).1.sessionRefreshesThisRequest
        = st.sessionRefreshesThisRequest + 1 ∧
      countFetches (fetchSectionStep email password st inp).2.2 = 2 ∧
      (fetchSectionStep email password st inp).2.1 = inp.retryItems) ∧
    (inp.refreshOk = false →
      (fetchSectionStep email password st inp).1.sessionRefreshesThisRequest
        = st.sessionRefreshesThisRequest ∧
      countFetches (fetchSectionStep email password st inp).2.2 = 1 ∧
      OrchEvent.sleepCooldown (sleepRangeMs 60000 65000 inp.cooldownSeed)
        ∈ (fetchSectionStep email password st inp).2.2 ∧
      60000 ≤ sleepRangeMs 60000 65000 inp.cooldownSeed ∧
      sleepRangeMs 60000 65000 inp.cooldownSeed ≤ 65000 ∧
      (fetchSectionStep email password st inp).2.1 = inp.firstItems) ∧
    (∀ st2 inp2, inp2.firstItems ≠ [] →
      (fetchSectionStep email password st2 inp2).1.consecutiveEmptySections = 0) := by
  have hcond : SOFT_LIMIT_THRESHOLD ≤ st.consecutiveEmptySections + 1 ∧
      st.sessionRefreshesThisRequest < MAX_SESSION_REFRESHES_PER_REQUEST ∧
      email ≠ "" ∧ password ≠ "" := ⟨hthr, hbudget, he, hp⟩
  have hstepT : inp.refreshOk = true →
      fetchSectionStep email password st inp
        = (⟨0, st.sessionRefreshesThisRequest + 1⟩,
           inp.retryItems,
           [OrchEvent.waitSectionSlot, OrchEvent.recordRequestEv, OrchEvent.fetchSectionEv,
            OrchEvent.refreshAttempt true, OrchEvent.recordRequestEv,
            OrchEvent.fetchSectionEv]) := by
    intro hok
    unfold fetchSectionStep
    simp [hempty, hcond, hok]
  have hstepF : inp.refreshOk = false →
      fetchSectionStep email password st inp
        = (⟨st.consecutiveEmptySections + 1, st.sessionRefreshesThisRequest⟩,
           inp.firstItems,
           [OrchEvent.waitSectionSlot, OrchEvent.recordRequestEv, OrchEvent.fetchSectionEv,
            OrchEvent.refreshAttempt false,
            OrchEvent.sleepCooldown (sleepRangeMs 60000 65000 inp.cooldownSeed)]) := by
    intro hok
    unfold fetchSectionStep
    simp [hempty, hcond, hok]
  have hlo : 60000 ≤ sleepRangeMs 60000 65000 inp.cooldownSeed := Nat.le_add_right _ _
  have hhi : sleepRangeMs 60000 65000 inp.cooldownSeed ≤ 65000 := by
    have := Nat.mod_lt inp.cooldownSeed (show 0 < 65000 - 60000 + 1 by decide)
    simp only [sleepRangeMs]
    omega
  refine ⟨?_, ?_, ?_, ?_⟩
  · cases hok : inp.refreshOk
    · rw [hstepF hok]
      rfl
    · rw [hstepT hok]
      rfl
  · intro hok
    rw [hstepT hok]
    exact ⟨rfl, rfl, rfl, rfl⟩
  · intro hok
    rw [hstepF hok]
    refine ⟨rfl, rfl, ?_, hlo, hhi, rfl⟩
    simp
  · intro st2 inp2 hne
    unfold fetchSectionStep
    simp [List.isEmpty_iff, hne]

/-- C2 witness: one empty section at counter 1 with budget 0 and
credentials set triggers exactly one refresh attempt; the successful
refresh resets the counter and retries the same section once. -/
theorem fetchSectionStep_escalation_witness :
    countRefreshAttempts
      (fetchSectionStep "e@x" "pw" ⟨1, 0⟩ ⟨[], [recC3], true, 0⟩).2.2 = 1 ∧
    (fetchSectionStep "e@x" "pw" ⟨1, 0⟩
      ⟨[], [recC3], true, 0⟩).1.consecutiveEmptySections = 0 ∧
    countFetches (fetchSectionStep "e@x" "pw" ⟨1, 0⟩ ⟨[], [recC3], true, 0⟩).2.2 = 2 := by
  have h := fetchSectionStep_escalation "e@x" "pw" ⟨1, 0⟩ ⟨[], [recC3], true, 0⟩
    rfl (by decide) (by decide) (by decide) (by decide)
  exact ⟨h.1, (h.2.1 rfl).1, (h.2.1 rfl).2.2.1⟩

/-- C9: fetchSingleSection performs no rate-limiter wait at all — the trace
holds only recordRequest and network-call events (no profile slot, no
section slot, no sleep, no refresh attempt), the last-profile-operation
marker of the rate limiter is unchanged — and still records exactly one
request in the hourly window per underlying network call. -/
theorem fetchSingleSection_frame (rl : RLState) (now : Int) (env : SingleSectionEnv)
    (sectionType : String) :
    (∀ ev ∈ (fetchSingleSection rl now env sectionType).2.1,
      ev = OrchEvent.recordRequestEv ∨ ev = OrchEvent.fetchSectionEv) ∧
    (fetchSingleSection rl now env sectionType).2.2.lastProfileFetchTime
      = rl.lastProfileFetchTime ∧
    countRecords (fetchSingleSection rl now env sectionType).2.1
      = countApiCalls (fetchSingleSection rl now env sectionType).2.1 ∧
    (fetchSingleSection rl now env sectionType).2.2.requestTimestamps.length
      = rl.requestTimestamps.length
        + countApiCalls (fetchSingleSection rl now env sectionType).2.1 := by
  unfold fetchSingleSection resolveProfileUrn
  by_cases h1 : env.resolve.cacheHit <;>
    by_cases h2 : env.resolve.fileMatch <;>
    by_cases h3 : env.resolve.apiError <;>
    by_cases h4 : env.resolve.urnFound <;>
    simp [h1, h2, h3, h4, recordRequest, countRecords, countApiCalls]

/-- Folding recordRequest over a list of call times appends them in order. -/
theorem foldl_recordRequest_timestamps (times : List Int) (acc : List Int) (last : Int) :
    (times.foldl (fun s t => recordRequest s t) ⟨acc, last⟩).requestTimestamps
      = acc ++ times := by
  induction times generalizing acc with
  | nil => simp
  | cons t rest ih =>
    rw [List.foldl_cons,
      show recordRequest ⟨acc, last⟩ t = (⟨acc ++ [t], last⟩ : RLState) from rfl, ih]
    simp

/-- Folding recordRequest never touches the last-profile marker. -/
theorem foldl_recordRequest_last (times : List Int) (acc : List Int) (last : Int) :
    (times.foldl (fun s t => recordRequest s t) ⟨acc, last⟩).lastProfileFetchTime
      = last := by
  induction times generalizing acc with
  | nil => rfl
  | cons t rest ih =>
    rw [List.foldl_cons,
      show recordRequest ⟨acc, last⟩ t = (⟨acc ++ [t], last⟩ : RLState) from rfl]
    exact ih (acc ++ [t])

/-- C6: after any sequence of N recordRequest calls at times no later than
the read time, getHourlyUsage reports a used count that never exceeds N and
equals exactly the number of recorded requests within the trailing
3,600,000 ms of the read time; and the pruned window never retains an entry
older than one hour at the read time. -/
theorem getHourlyUsage_window (times : List Int) (now : Int)
    (hmono : ∀ t ∈ times, t ≤ now) :
    (getHourlyUsage defaultRLConfig
        (times.foldl (fun s t => recordRequest s t) initialRLState) now).1.1
      ≤ times.length ∧
    (getHourlyUsage defaultRLConfig
        (times.foldl (fun s t => recordRequest s t) initialRLState) now).1.1
      = (times.filter (fun t => decide (now - HOUR_MS < t ∧ t ≤ now))).length ∧
    (∀ t ∈ (getHourlyUsage defaultRLConfig
        (times.foldl (fun s t => recordRequest s t) initialRLState) now).2.requestTimestamps,
      now - HOUR_MS < t ∧ t ≤ now) := by
  have hts : (times.foldl (fun s t => recordRequest s t) initialRLState).requestTimestamps
      = times := by
    have := foldl_recordRequest_timestamps times [] 0
    simpa [initialRLState] using this
  have hfilter : times.filter (fun t => decide (now - HOUR_MS < t))
      = times.filter (fun t => decide (now - HOUR_MS < t ∧ t ≤ now)) := by
    apply List.filter_congr
    intro t ht
    have := hmono t ht
    simp [this]
  refine ⟨?_, ?_, ?_⟩
  · simp only [getHourlyUsage, pruneOldTimestamps, hts]
    exact List.length_filter_le _ _
  · simp only [getHourlyUsage, pruneOldTimestamps, hts]
    rw [hfilter]
  · intro t ht
    simp only [getHourlyUsage, pruneOldTimestamps, hts] at ht
    rw [hfilter] at ht
    have := List.of_mem_filter ht
    simpa using this

/-- C6 witness: three requests, one of them stale, read at a concrete
time. -/
theorem getHourlyUsage_window_witness :
    (getHourlyUsage defaultRLConfig
        ([1000, 3600500, 7200000].foldl (fun s t => recordRequest s t) initialRLState)
        7200000).1.1 ≤ 3 ∧
    (getHourlyUsage defaultRLConfig
        ([1000, 3600500, 7200000].foldl (fun s t => recordRequest s t) initialRLState)
        7200000).1.1
      = ([1000, 3600500, 7200000].filter
          (fun t => decide (7200000 - HOUR_MS < t ∧ t ≤ 7200000))).length := by
  have h := getHourlyUsage_window [1000, 3600500, 7200000] 7200000 (by decide)
  exact ⟨h.1, h.2.1⟩

/-- The realised random gap always lies in the configured interval. -/
theorem randomIntM_bounds (lo hi : Int) (r : Nat) (h : lo ≤ hi) :
    lo ≤ randomIntM lo hi r ∧ randomIntM lo hi r ≤ hi := by
  have h1 : 0 ≤ (r : Int) % (hi - lo + 1) := Int.emod_nonneg _ (by omega)
  have h2 : (r : Int) % (hi - lo + 1) < hi - lo + 1 := Int.emod_lt_of_pos _ (by omega)
  unfold randomIntM
  omega

/-- The quota wait never goes back in time. -/
theorem quotaResumeTime_ge_now (cfg : RLConfig) (ts : List Int) (now : Int) :
    now ≤ quotaResumeTime cfg ts now := by
  unfold quotaResumeTime
  rcases h : ts.head? with _ | oldest
  · split
    · exact le_rfl
    · exact le_rfl
  · split
    · show now ≤ if 0 < oldest + HOUR_MS - now then oldest + HOUR_MS else now
      split <;> omega
    · exact le_rfl

/-- When the window is at the cap, the quota wait outlasts the hour of the
oldest window entry. -/
theorem quotaResumeTime_ge_oldest (cfg : RLConfig) (ts : List Int) (now oldest : Int)
    (hlen : cfg.maxRequestsPerHour ≤ ts.length) (hh : ts.head? = some oldest) :
    oldest + HOUR_MS ≤ quotaResumeTime cfg ts now := by
  unfold quotaResumeTime
  rw [if_pos hlen, hh]
  show oldest + HOUR_MS ≤ if 0 < oldest + HOUR_MS - now then oldest + HOUR_MS else now
  split <;> omega

/-- The gap wait never goes back in time. -/
theorem gapResumeTime_ge (last t1 gap : Int) : t1 ≤ gapResumeTime last t1 gap := by
  unfold gapResumeTime
  split
  · split <;> omega
  · omega

/-- With a previous profile operation on record, the gap wait returns no
earlier than that operation plus the chosen gap. -/
theorem gapResumeTime_ge_gap (last t1 gap : Int) (h : 0 < last) :
    last + gap ≤ gapResumeTime last t1 gap := by
  unfold gapResumeTime
  rw [if_pos h]
  split <;> omega

/-- C5 (amended): when waitForProfileSlot returns, (a) provided the pruned
window held at most the hourly cap of entries at entry, the sliding-window
count at the return time is below the cap (the wait only outlasts the
oldest entry, so an over-full window — possible because recordRequest is
not gated by the cap — can still be at or above it); (b) when a previous
profile-level operation exists, at least the randomly chosen gap in
[minProfileGapMs, maxProfileGapMs] — hence at least minProfileGapMs — has
elapsed since it began; (c) the last-profile-operation marker equals the
return time, which never precedes the call time; and a second back-to-back
call never returns before minProfileGapMs after the first return.  The
function is total, modelling that the call only delays and never errors. -/
theorem waitForProfileSlot_spec (cfg : RLConfig) (st : RLState) (now : Int) (gapSeed : Nat)
    (hcap0 : 0 < cfg.maxRequestsPerHour)
    (hgap : cfg.minProfileGapMs ≤ cfg.maxProfileGapMs)
    (hnow : 0 < now)
    (hcap : (pruneOldTimestamps now st.requestTimestamps).length ≤ cfg.maxRequestsPerHour) :
    (pruneOldTimestamps (waitForProfileSlot cfg st now gapSeed).2
        (waitForProfileSlot cfg st now gapSeed).1.requestTimestamps).length
      < cfg.maxRequestsPerHour ∧
    (waitForProfileSlot cfg st now gapSeed).1.lastProfileFetchTime
      = (waitForProfileSlot cfg st now gapSeed).2 ∧
    now ≤ (waitForProfileSlot cfg st now gapSeed).2 ∧
    (0 < st.lastProfileFetchTime →
      st.lastProfileFetchTime + randomIntM cfg.minProfileGapMs cfg.maxProfileGapMs gapSeed
        ≤ (waitForProfileSlot cfg st now gapSeed).2 ∧
      st.lastProfileFetchTime + cfg.minProfileGapMs
        ≤ (waitForProfileSlot cfg st now gapSeed).2) ∧
    (∀ now2 gapSeed2, (waitForProfileSlot cfg st now gapSeed).2 ≤ now2 →
      (waitForProfileSlot cfg st now gapSeed).2 + cfg.minProfileGapMs
        ≤ (waitForProfileSlot cfg (waitForProfileSlot cfg st now gapSeed).1 now2 gapSeed2).2) := by
  have hglo := (randomIntM_bounds cfg.minProfileGapMs cfg.maxProfileGapMs gapSeed hgap).1
  have ht1now : now ≤ quotaResumeTime cfg (pruneOldTimestamps now st.requestTimestamps) now :=
    quotaResumeTime_ge_now cfg _ now
  have ht2t1 : quotaResumeTime cfg (pruneOldTimestamps now st.requestTimestamps) now
      ≤ (waitForProfileSlot cfg st now gapSeed).2 :=
    gapResumeTime_ge _ _ _
  have hretnow : now ≤ (waitForProfileSlot cfg st now gapSeed).2 := le_trans ht1now ht2t1
  refine ⟨?_, rfl, hretnow, ?_, ?_⟩
  · show (pruneOldTimestamps (waitForProfileSlot cfg st now gapSeed).2
        (pruneOldTimestamps now st.requestTimestamps)).length < cfg.maxRequestsPerHour
    rcases Nat.lt_or_ge (pruneOldTimestamps now st.requestTimestamps).length
        cfg.maxRequestsPerHour with hlt | hge
    · exact Nat.lt_of_le_of_lt (List.length_filter_le _ _) hlt
    · cases hts : pruneOldTimestamps now st.requestTimestamps with
      | nil =>
        rw [hts] at hge
        simp at hge
        omega
      | cons h0 tl =>
        have hh : (pruneOldTimestamps now st.requestTimestamps).head? = some h0 := by
          rw [hts]; rfl
        have hold : h0 + HOUR_MS
            ≤ quotaResumeTime cfg (pruneOldTimestamps now st.requestTimestamps) now :=
          quotaResumeTime_ge_oldest cfg _ now h0 hge hh
        have hret : h0 + HOUR_MS ≤ (waitForProfileSlot cfg st now gapSeed).2 :=
          le_trans hold ht2t1
        have hp : (decide ((waitForProfileSlot cfg st now gapSeed).2 - HOUR_MS < h0)) = false := by
          simp only [decide_eq_false_iff_not, not_lt]
          omega
        have hlen : tl.length + 1 ≤ cfg.maxRequestsPerHour := by
          rw [hts] at hcap
          simpa using hcap
        unfold pruneOldTimestamps
        simp only [List.filter_cons, hp, Bool.false_eq_true, if_false]
        exact Nat.lt_of_le_of_lt (List.length_filter_le _ _) (by omega)
  · intro hlast
    have := gapResumeTime_ge_gap st.lastProfileFetchTime
      (quotaResumeTime cfg (pruneOldTimestamps now st.requestTimestamps) now)
      (randomIntM cfg.minProfileGapMs cfg.maxProfileGapMs gapSeed) hlast
    constructor
    · exact this
    · have h2 : st.lastProfileFetchTime + cfg.minProfileGapMs
          ≤ st.lastProfileFetchTime
            + randomIntM cfg.minProfileGapMs cfg.maxProfileGapMs gapSeed := by omega
      exact le_trans h2 this
  · intro now2 gapSeed2 hle
    have hlast2 : 0 < (waitForProfileSlot cfg st now gapSeed).1.lastProfileFetchTime := by
      show 0 < (waitForProfileSlot cfg st now gapSeed).2
      omega
    have hg2 := (randomIntM_bounds cfg.minProfileGapMs cfg.maxProfileGapMs gapSeed2 hgap).1
    have := gapResumeTime_ge_gap (waitForProfileSlot cfg st now gapSeed).1.lastProfileFetchTime
      (quotaResumeTime cfg
        (pruneOldTimestamps now2 (waitForProfileSlot cfg st now gapSeed).1.requestTimestamps)
        now2)
      (randomIntM cfg.minProfileGapMs cfg.maxProfileGapMs gapSeed2) hlast2
    have heq : (waitForProfileSlot cfg st now gapSeed).1.lastProfileFetchTime
        = (waitForProfileSlot cfg st now gapSeed).2 := rfl
    rw [heq] at this
    calc (waitForProfileSlot cfg st now gapSeed).2 + cfg.minProfileGapMs
        ≤ (waitForProfileSlot cfg st now gapSeed).2
            + randomIntM cfg.minProfileGapMs cfg.maxProfileGapMs gapSeed2 := by omega
      _ ≤ _ := this

set_option maxRecDepth 100000 in
/-- C5 counterexample: with 201 in-window timestamps against the default
cap of 200 (recordRequest is never gated by the cap, so this state is
reachable), waitForProfileSlot waits only until the oldest timestamp exits
the window and returns while the sliding-window count is still 200, not
below the cap. -/
theorem waitForProfileSlot_overfull_not_below_cap :
    ¬ ((pruneOldTimestamps
          (waitForProfileSlot defaultRLConfig
            ⟨(List.range 201).map (fun i => (i : Int)), 0⟩ 1 0).2
          (waitForProfileSlot defaultRLConfig
            ⟨(List.range 201).map (fun i => (i : Int)), 0⟩ 1 0).1.requestTimestamps).length
        < defaultRLConfig.maxRequestsPerHour) := by decide

/-- C5 witness: a singleton window below the cap with a previous profile
fetch at time 50, called at time 60. -/
theorem waitForProfileSlot_spec_witness :
    (pruneOldTimestamps (waitForProfileSlot defaultRLConfig ⟨[100], 50⟩ 60 3).2
        (waitForProfileSlot defaultRLConfig ⟨[100], 50⟩ 60 3).1.requestTimestamps).length
      < defaultRLConfig.maxRequestsPerHour ∧
    (waitForProfileSlot defaultRLConfig ⟨[100], 50⟩ 60 3).1.lastProfileFetchTime
      = (waitForProfileSlot defaultRLConfig ⟨[100], 50⟩ 60 3).2 ∧
    (50 : Int) + defaultRLConfig.minProfileGapMs
      ≤ (waitForProfileSlot defaultRLConfig ⟨[100], 50⟩ 60 3).2 := by
  have h := waitForProfileSlot_spec defaultRLConfig ⟨[100], 50⟩ 60 3
    (by decide) (by decide) (by decide) (by decide)
  exact ⟨h.1, h.2.1, (h.2.2.2.1 (by decide)).2⟩

/-- Reduction of a successful Except bind. -/
theorem exceptBind_ok {α β ε : Type} (a : α) (f : α → Except ε β) :
    (Except.ok a >>= f) = f a := rfl

/-- Reduction of a failed Except bind. -/
theorem exceptBind_err {α β ε : Type} (e : ε) (f : α → Except ε β) :
    ((Except.error e : Except ε α) >>= f) = Except.error e := rfl

/-- The experience field map always yields a record with the five fixed
keys, company second. -/
theorem mkRecord_experience_eq (t s c m d co : Json) :
    mkRecord "experience" t s c m d co
      = some (Json.obj [("title", t),
          ("company", if jsStrictEq co (Json.str "N/A") then s else co),
          ("duration", c), ("location", m), ("description", d)]) := rfl

/-- Any record produced by extractEntityData for the experience section is
an object with the five fixed keys in order. -/
theorem extractEntityData_experience_shape (entity included item : Json)
    (h : extractEntityData entity "experience" included = .ok (some item)) :
    ∃ t co c m d, item
      = Json.obj [("title", t), ("company", co), ("duration", c),
                  ("location", m), ("description", d)] := by
  unfold extractEntityData at h
  cases hf : extractEntityFields entity included with
  | error e =>
    rw [hf] at h
    simp only [exceptBind_err] at h
    exact absurd h (by simp)
  | ok f =>
    rw [hf] at h
    rw [exceptBind_ok, mkRecord_experience_eq] at h
    simp only [pure, Except.pure, Except.ok.injEq, Option.some.injEq] at h
    exact ⟨f.1, _, f.2.2.1, f.2.2.2.1, f.2.2.2.2.1, h.symm⟩

/-- C7 (amended): in the grouped (nested paged list) extraction path for
the experience section, every nested element whose own extracted company is
the 'N/A' placeholder or strictly equal to its own title receives the
resolved parent label in its company field; in particular, nested elements
lacking their own company field all receive the parent company name.  (For
volunteering the parent label is attached as an added `company` property
while the `organization` field keeps the entity's own value — see the
counterexample.) -/
theorem processNested_experience_parent_label (included parentCompany : Json)
    (els out : List Json)
    (hout : processNested "experience" included parentCompany els = .ok out)
    (hall : ∀ el ∈ els, ∀ c item,
      el.get "components" = .ok c →
      extractEntityData (c.qget "entityComponent") "experience" included = .ok (some item) →
      (jsStrictEq (item.qget "company") (Json.str "N/A")
        || jsStrictEq (item.qget "company") (item.qget "title")) = true) :
    ∀ item ∈ out, Json.objField item "company" = some parentCompany := by
  induction els generalizing out with
  | nil =>
    have h0 : (Except.ok ([] : List Json) : Except String (List Json)) = .ok out := hout
    simp only [Except.ok.injEq] at h0
    subst h0
    intro item him
    simp at him
  | cons el rest ih =>
    unfold processNested at hout
    cases hc : el.get "components" with
    | error e =>
      rw [hc, exceptBind_err] at hout
      exact absurd hout (by simp)
    | ok c =>
      rw [hc, exceptBind_ok] at hout
      by_cases htr : (c.qget "entityComponent").truthy = true
      · rw [if_pos htr] at hout
        cases hx : extractEntityData (c.qget "entityComponent") "experience" included with
        | error e =>
          rw [hx, exceptBind_err] at hout
          exact absurd hout (by simp)
        | ok item? =>
          rw [hx, exceptBind_ok] at hout
          cases ht : processNested "experience" included parentCompany rest with
          | error e =>
            rw [ht, exceptBind_err] at hout
            exact absurd hout (by simp)
          | ok tail =>
            rw [ht, exceptBind_ok] at hout
            have htail : ∀ item ∈ tail, Json.objField item "company" = some parentCompany :=
              ih tail ht (fun el2 hel2 => hall el2 (List.mem_cons_of_mem _ hel2))
            cases item? with
            | none =>
              have h0 : (Except.ok tail : Except String (List Json)) = .ok out := hout
              simp only [Except.ok.injEq] at h0
              subst h0
              exact htail
            | some item =>
              obtain ⟨t, co, cc, m, d, hitem⟩ :=
                extractEntityData_experience_shape _ _ _ hx
              subst hitem
              have hcond : (jsStrictEq co (Json.str "N/A") || jsStrictEq co t) = true :=
                hall el (List.mem_cons_self _ _) c _ hc hx
              have hout2 : (Except.ok
                  ((if jsStrictEq co (Json.str "N/A") || jsStrictEq co t then
                      setObjField (Json.obj [("title", t), ("company", co), ("duration", cc),
                        ("location", m), ("description", d)]) "company" parentCompany
                    else
                      Json.obj [("title", t), ("company", co), ("duration", cc),
                        ("location", m), ("description", d)]) :: tail)
                  : Except String (List Json)) = .ok out := hout
              rw [hcond, if_pos rfl] at hout2
              simp only [Except.ok.injEq] at hout2
              subst hout2
              intro item2 him2
              rcases List.mem_cons.mp him2 with rfl | hmem
              · rfl
              · exact htail item2 hmem
      · rw [if_neg htr] at hout
        exact ih out hout (fun el2 hel2 => hall el2 (List.mem_cons_of_mem _ hel2))

/-- C7 witness: two nested elements without their own company under a
parent whose label resolves to "ParentCo" both receive company
"ParentCo". -/
theorem processNested_experience_parent_label_witness :
    processNested "experience" (.arr includedC7) (Json.str "ParentCo")
      [nestedElC7 "Role1" "2020", nestedElC7 "Role2" "2021"]
      = .ok [erecC7 "Role1" "2020", erecC7 "Role2" "2021"] ∧
    Json.objField (erecC7 "Role1" "2020") "company" = some (Json.str "ParentCo") ∧
    Json.objField (erecC7 "Role2" "2021") "company" = some (Json.str "ParentCo") := by
  have h := processNested_experience_parent_label (.arr includedC7) (Json.str "ParentCo")
    [nestedElC7 "Role1" "2020", nestedElC7 "Role2" "2021"]
    [erecC7 "Role1" "2020", erecC7 "Role2" "2021"] rfl ?hall
  case hall =>
    intro el hel c item h1 h2
    rcases List.mem_cons.mp hel with rfl | hel2
    · injection h1 with h1x
      subst h1x
      injection h2 with h2x
      injection h2x with h2y
      subst h2y
      rfl
    · rcases List.mem_cons.mp hel2 with rfl | hel3
      · injection h1 with h1x
        subst h1x
        injection h2 with h2x
        injection h2x with h2y
        subst h2y
        rfl
      · exact absurd hel3 (List.not_mem_nil el)
  refine ⟨rfl, ?_, ?_⟩
  · exact h (erecC7 "Role1" "2020") (by simp)
  · exact h (erecC7 "Role2" "2021") (by simp)

/-- C7 counterexample: in the volunteering section the claim fails — the
parent label (correctly resolved to ParentCo via the logo cross-reference)
is attached as an extra `company` property because the volunteering record
has no company/title fields (undefined === undefined), while the
`organization` field of a nested element lacking its own organization keeps
the 'N/A' placeholder instead of receiving the parent label. -/
theorem extractComponentData_grouped_volunteering_not_parent :
    extractComponentData envC7 "volunteering-experiences"
      = .ok [vrecC7 "Role1" "2020", vrecC7 "Role2" "2021"] ∧
    parentCompanyLabel parentEntC7 (.arr includedC7) = .ok (Json.str "ParentCo") ∧
    Json.objField (vrecC7 "Role1" "2020") "organization" = some (Json.str "N/A") ∧
    Json.objField (vrecC7 "Role1" "2020") "organization" ≠ some (Json.str "ParentCo") := by
  refine ⟨rfl, rfl, rfl, ?_⟩
  intro h
  rw [show Json.objField (vrecC7 "Role1" "2020") "organization"
    = some (Json.str "N/A") from rfl] at h
  simp at h
